import Mathlib

/-!
Verification of the conversational analytics assistant (Olist chatbot).

The Python sources are shallowly embedded: pure fragments become Lean
functions over `List Char` / `String`, the LLM ("oracle"), the vector-search
backend and the SQLite executor are opaque parameters, and Python exceptions
become `Except String`.  Machine floats are modelled by `PyFloat`
(a rational together with the non-finite values NaN / +inf / -inf).
-/

namespace Olist

/-! ## Python string primitives (ASCII fragment used by the agents) -/

/-- Whitespace recognised by Python `str.strip()` (ASCII range):
space, tab, newline, carriage return, vertical tab, form feed. -/
def pyIsSpace (c : Char) : Bool :=
  c == ' ' || c == '\t' || c == '\n' || c == '\r' ||
    c == Char.ofNat 11 || c == Char.ofNat 12

/-- Python `str.lower()` on a single character (ASCII fragment). -/
def pyToLower (c : Char) : Char :=
  if 65 ≤ c.toNat ∧ c.toNat ≤ 90 then Char.ofNat (c.toNat + 32) else c

/-- Python `str.lower()` on a character list. -/
def lowerL (l : List Char) : List Char := l.map pyToLower

/-- Python `str.lstrip()`. -/
def ltrim (l : List Char) : List Char := l.dropWhile pyIsSpace

/-- Python `str.rstrip()`. -/
def rtrim (l : List Char) : List Char := (l.reverse.dropWhile pyIsSpace).reverse

/-- Python `str.strip()`. -/
def trimL (l : List Char) : List Char := rtrim (ltrim l)

/-- Python `str.strip()` at `String` type. -/
def pyStrip (s : String) : String := ⟨trimL s.toList⟩

/-- Python `str.strip().lower()` at `String` type
(as in `ChatAgent._route_intent`). -/
def pyStripLower (s : String) : String := ⟨lowerL (trimL s.toList)⟩

theorem pyToLower_of_space {c : Char} (h : pyIsSpace c = true) : pyToLower c = c := by
  simp only [pyIsSpace, Bool.or_eq_true, beq_iff_eq] at h
  rcases h with ((((h | h) | h) | h) | h) | h <;> subst h <;> decide

theorem pyIsSpace_pyToLower {c : Char} (h : pyIsSpace c = true) :
    pyIsSpace (pyToLower c) = true := by
  rw [pyToLower_of_space h]; exact h

/-- Splitting off the all-whitespace tail removed by `rtrim`. -/
theorem rtrim_append (l : List Char) :
    rtrim l ++ (l.reverse.takeWhile pyIsSpace).reverse = l := by
  have h : (l.reverse.takeWhile pyIsSpace ++ l.reverse.dropWhile pyIsSpace).reverse
      = l.reverse.reverse := by
    rw [List.takeWhile_append_dropWhile]
  rw [List.reverse_append, List.reverse_reverse] at h
  simpa [rtrim] using h

theorem mem_rtrim_tail {l : List Char} {c : Char}
    (h : c ∈ (l.reverse.takeWhile pyIsSpace).reverse) : pyIsSpace c = true := by
  rw [List.mem_reverse] at h
  exact List.mem_takeWhile_imp h

namespace SQLAgent

/-- `SQLAgent.UNSAFE_WORDS`: write-keyword tokens blocked by the validator.
Each token carries its trailing space exactly as in the source list. -/
def UNSAFE_WORDS : List (List Char) :=
  ["update ".toList, "delete ".toList, "insert ".toList, "alter ".toList,
   "drop ".toList, "create ".toList, "replace ".toList, "truncate ".toList]

/-- The required lowercase prefix of a safe statement. -/
def selectL : List Char := "select".toList

/-- `SQLAgent._is_safe_sql` on a character list: the lowercased text must
start with `select`, contain no `UNSAFE_WORDS` token and no semicolon. -/
def is_safe_sqlL (l : List Char) : Bool :=
  let sl := lowerL l
  decide (selectL <+: sl) &&
    UNSAFE_WORDS.all (fun w => !decide (w <:+: sl)) &&
    !decide (';' ∈ sl)

/-- `SQLAgent._is_safe_sql` at `String` type. -/
def is_safe_sql (s : String) : Bool := is_safe_sqlL s.toList

theorem is_safe_sqlL_eq_true {l : List Char} :
    is_safe_sqlL l = true ↔
      (selectL <+: lowerL l) ∧ (∀ w ∈ UNSAFE_WORDS, ¬ w <:+: lowerL l) ∧
        ';' ∉ lowerL l := by
  simp [is_safe_sqlL, List.all_eq_true, and_assoc]

/-- `SQLAgent._normalize_sql`: strip surrounding whitespace, drop a single
trailing semicolon, strip again. -/
def normalize_sqlL (l : List Char) : List Char :=
  let t := trimL l
  if t.getLast? = some ';' then trimL t.dropLast else t

/-- `SQLAgent._normalize_sql` at `String` type. -/
def normalize_sql (s : String) : String := ⟨normalize_sqlL s.toList⟩

theorem select_not_space : ∀ c ∈ selectL, pyIsSpace c = false := by decide

/-- The `select` prefix survives stripping: helper for claim C3. -/
theorem selectL_prefix_trim {l : List Char} (h : selectL <+: lowerL l) :
    selectL <+: lowerL (trimL l) := by
  -- Step 1: the head of `l` is not whitespace, so `ltrim l = l`.
  have hlt : ltrim l = l := by
    cases l with
    | nil => rfl
    | cons c t =>
      have hc : pyToLower c = 's' := by
        obtain ⟨r, hr⟩ := h
        have := congrArg (List.head? ·) hr
        simpa [lowerL, selectL] using this.symm
      have hcs : pyIsSpace c = false := by
        by_contra hne
        have hsp : pyIsSpace c = true := by
          cases hb : pyIsSpace c
          · exact absurd hb hne
          · rfl
        have : pyIsSpace 's' = true := hc ▸ pyIsSpace_pyToLower hsp
        exact absurd this (by decide)
      simp [ltrim, List.dropWhile_cons, hcs]
  -- Step 2: the `select` prefix survives `rtrim`.
  rw [trimL, hlt]
  set a := lowerL (rtrim l) with ha
  set b := lowerL ((l.reverse.takeWhile pyIsSpace).reverse) with hb
  have hsplit : lowerL l = a ++ b := by
    rw [ha, hb, lowerL, lowerL, lowerL, ← List.map_append, rtrim_append]
  rw [hsplit] at h
  have hbws : ∀ c ∈ b, pyIsSpace c = true := by
    intro c hcb
    rw [hb] at hcb
    obtain ⟨d, hd, rfl⟩ := List.mem_map.mp hcb
    exact pyIsSpace_pyToLower (mem_rtrim_tail hd)
  have hlen : selectL.length = 6 := by decide
  have htake : (a ++ b).take 6 = selectL := by
    have := List.prefix_iff_eq_take.mp h
    rw [hlen] at this
    exact this.symm
  rw [List.take_append_eq_append_take] at htake
  by_cases hal : 6 ≤ a.length
  · have h0 : 6 - a.length = 0 := Nat.sub_eq_zero_of_le hal
    rw [h0, List.take_zero, List.append_nil] at htake
    exact htake ▸ List.take_prefix 6 a
  · exfalso
    push_neg at hal
    have hta : a.take 6 = a := List.take_of_length_le (Nat.le_of_lt hal)
    rw [hta] at htake
    have hkne : b.take (6 - a.length) ≠ [] := by
      intro hnil
      rw [hnil, List.append_nil] at htake
      have : a.length = 6 := by rw [htake, hlen]
      omega
    obtain ⟨c, hc⟩ := List.exists_mem_of_ne_nil _ hkne
    have hcsel : c ∈ selectL := by
      rw [← htake]
      exact List.mem_append_right _ hc
    have hws : pyIsSpace c = true := hbws c (List.mem_of_mem_take hc)
    have := select_not_space c hcsel
    rw [this] at hws
    exact Bool.false_ne_true hws

/-- C3: any SQL text that contains one of the blocked write-keyword tokens
(case-insensitively, anywhere), or contains a semicolon, or whose
lowercase-trimmed text does not start with `select`, is rejected by
`SQLAgent._is_safe_sql`. -/
theorem is_safe_sql_rejects (s : String)
    (h : (∃ w ∈ UNSAFE_WORDS, w <:+: lowerL s.toList) ∨ ';' ∈ s.toList ∨
         ¬ (selectL <+: lowerL (trimL s.toList))) :
    is_safe_sql s = false := by
  rw [is_safe_sql, Bool.eq_false_iff]
  intro ht
  rw [is_safe_sqlL_eq_true] at ht
  rcases h with ⟨w, hw, hinf⟩ | hsemi | hsel
  · exact ht.2.1 w hw hinf
  · apply ht.2.2
    have : pyToLower ';' ∈ lowerL s.toList := List.mem_map_of_mem pyToLower hsemi
    simpa [show pyToLower ';' = ';' from by decide] using this
  · exact hsel (selectL_prefix_trim ht.1)

/-- C3 witness: evaluation on a concrete unsafe statement. -/
theorem is_safe_sql_rejects_witness :
    ((∃ w ∈ UNSAFE_WORDS, w <:+: lowerL "select 1; DROP table t".toList) ∨
       ';' ∈ "select 1; DROP table t".toList ∨
       ¬ (selectL <+: lowerL (trimL "select 1; DROP table t".toList))) ∧
      is_safe_sql "select 1; DROP table t" = false :=
  ⟨Or.inr (Or.inl (by decide)),
   is_safe_sql_rejects "select 1; DROP table t" (Or.inr (Or.inl (by decide)))⟩

/-- A SQLite storage value, as returned by `cursor.fetchall`. -/
inductive DbVal
  | null
  | int (n : Int)
  | real (q : ℚ)
  | text (s : String)
deriving DecidableEq, Repr

/-- One result row. -/
abbrev Row := List DbVal

/-- The `{columns, rows}` record built by `SQLAgent._run_sql`. -/
structure SqlExec where
  columns : List String
  rows : List Row
deriving DecidableEq, Repr

/-- `SQLAgent._run_sql`: the relational store is an opaque executor `db`;
the fetched rows are truncated to `top_n`. -/
def run_sql (top_n : Nat) (db : List Char → SqlExec) (sql : List Char) : SqlExec :=
  { columns := (db sql).columns, rows := (db sql).rows.take top_n }

/-- The dictionary returned by `SQLAgent.query`. -/
structure SqlQueryOutput where
  question : String
  answer_lang : String
  sql_initial : List Char
  sql_used : List Char
  sql_fallback : List Char
  used_fallback : Bool
  result : SqlExec
  summary : String
  categories : List String
deriving DecidableEq, Repr

/-- `SQLAgent.query`: generate, normalize, validate, execute, retry once on an
empty result.  The oracle is opaque: `gen1` is what `_generate_sql` returned
(after fence stripping), `gen2` what `_generate_fallback_sql` would return,
and `summarize` stands for `_summarize`.  An unsafe first query raises
(`Except.error`), an unsafe fallback silently keeps the first result. -/
def query (top_n : Nat) (categories : List String) (db : List Char → SqlExec)
    (gen1 gen2 : List Char) (summarize : List Char → SqlExec → String)
    (question : String) (answer_lang : String) : Except String SqlQueryOutput :=
  let sql1 := normalize_sqlL gen1
  if is_safe_sqlL sql1 then
    let result1 := run_sql top_n db sql1
    if result1.rows.length = 0 then
      let sql2 := normalize_sqlL gen2
      if is_safe_sqlL sql2 then
        let result2 := run_sql top_n db sql2
        .ok { question, answer_lang, sql_initial := sql1, sql_used := sql2,
              sql_fallback := sql2, used_fallback := true, result := result2,
              summary := summarize sql2 result2, categories }
      else
        .ok { question, answer_lang, sql_initial := sql1, sql_used := sql1,
              sql_fallback := [], used_fallback := false, result := result1,
              summary := summarize sql1 result1, categories }
    else
      .ok { question, answer_lang, sql_initial := sql1, sql_used := sql1,
            sql_fallback := [], used_fallback := false, result := result1,
            summary := summarize sql1 result1, categories }
  else .error ("Generated SQL dianggap tidak aman:\n" ++ String.mk gen1)

/-- C4: in `SQLAgent.query`, `used_fallback` is true iff the validated initial
query's execution returned zero rows and the generated fallback passed
validation (and was then executed); when the initial result is empty but the
fallback fails validation, `used_fallback` is false and the result remains
the empty initial result. -/
theorem query_used_fallback_iff (top_n : Nat) (categories : List String)
    (db : List Char → SqlExec) (gen1 gen2 : List Char)
    (summarize : List Char → SqlExec → String) (question answer_lang : String)
    (h : is_safe_sqlL (normalize_sqlL gen1) = true) :
    ∃ out, query top_n categories db gen1 gen2 summarize question answer_lang
        = .ok out ∧
      (out.used_fallback = true ↔
        (run_sql top_n db (normalize_sqlL gen1)).rows = [] ∧
          is_safe_sqlL (normalize_sqlL gen2) = true) ∧
      ((run_sql top_n db (normalize_sqlL gen1)).rows = [] →
        is_safe_sqlL (normalize_sqlL gen2) = false →
          out.used_fallback = false ∧
            out.result = run_sql top_n db (normalize_sqlL gen1) ∧
            out.sql_used = normalize_sqlL gen1) := by
  unfold query
  rw [if_pos h]
  by_cases he : (run_sql top_n db (normalize_sqlL gen1)).rows.length = 0
  · have he' : (run_sql top_n db (normalize_sqlL gen1)).rows = [] :=
      List.length_eq_zero.mp he
    by_cases hf : is_safe_sqlL (normalize_sqlL gen2) = true
    · refine ⟨_, by rw [if_pos he, if_pos hf], ?_, ?_⟩
      · simp [he', hf]
      · intro _ hf'
        rw [hf] at hf'
        exact absurd hf' (by decide)
    · refine ⟨_, by rw [if_pos he, if_neg hf], ?_, ?_⟩
      · simp only [Bool.false_eq_true, false_iff, not_and]
        intro _
        exact hf
      · intro _ _
        exact ⟨rfl, rfl, rfl⟩
  · refine ⟨_, by rw [if_neg he], ?_, ?_⟩
    · simp only [Bool.false_eq_true, false_iff, not_and]
      intro hrows
      rw [hrows] at he
      exact absurd rfl he
    · intro hrows
      rw [hrows] at he
      exact absurd rfl he

/-- C4 witness: a concrete database on which the initial query is empty and
the fallback is validated and executed. -/
theorem query_used_fallback_iff_witness :
    is_safe_sqlL (normalize_sqlL "select a from t where a = 0".toList) = true ∧
    ∃ out, query 20 [] (fun sql => if sql = "select a from t".toList
            then { columns := ["a"], rows := [[DbVal.int 1]] }
            else { columns := ["a"], rows := [] })
          "select a from t where a = 0".toList "select a from t".toList
          (fun _ _ => "") "q" "id" = .ok out ∧
      (out.used_fallback = true ↔
        (run_sql 20 (fun sql => if sql = "select a from t".toList
            then { columns := ["a"], rows := [[DbVal.int 1]] }
            else { columns := ["a"], rows := [] })
          (normalize_sqlL "select a from t where a = 0".toList)).rows = [] ∧
          is_safe_sqlL (normalize_sqlL "select a from t".toList) = true) ∧
      ((run_sql 20 (fun sql => if sql = "select a from t".toList
            then { columns := ["a"], rows := [[DbVal.int 1]] }
            else { columns := ["a"], rows := [] })
          (normalize_sqlL "select a from t where a = 0".toList)).rows = [] →
        is_safe_sqlL (normalize_sqlL "select a from t".toList) = false →
          out.used_fallback = false ∧
            out.result = run_sql 20 (fun sql => if sql = "select a from t".toList
                then { columns := ["a"], rows := [[DbVal.int 1]] }
                else { columns := ["a"], rows := [] })
              (normalize_sqlL "select a from t where a = 0".toList) ∧
            out.sql_used = normalize_sqlL "select a from t where a = 0".toList) :=
  ⟨by decide,
   query_used_fallback_iff 20 [] _ _ _ (fun _ _ => "") "q" "id" (by decide)⟩

theorem ltrim_concat_semicolon (l : List Char) :
    ltrim (l ++ [';']) = ltrim l ++ [';'] := by
  induction l with
  | nil => decide
  | cons c t ih =>
    by_cases hc : pyIsSpace c = true
    · simpa [ltrim, List.dropWhile_cons, hc] using ih
    · simp [ltrim, List.dropWhile_cons, hc]

theorem rtrim_concat_semicolon (l : List Char) :
    rtrim (l ++ [';']) = l ++ [';'] := by
  have hrev : (l ++ [';']).reverse = ';' :: l.reverse := by
    simp
  rw [rtrim, hrev, List.dropWhile_cons]
  simp [show pyIsSpace ';' = false from by decide]

theorem ltrim_idem (l : List Char) : ltrim (ltrim l) = ltrim l := by
  induction l with
  | nil => rfl
  | cons c t ih =>
    by_cases hc : pyIsSpace c = true
    · simpa [ltrim, List.dropWhile_cons, hc] using ih
    · simp [ltrim, List.dropWhile_cons, hc]

theorem trimL_ltrim (l : List Char) : trimL (ltrim l) = trimL l := by
  rw [trimL, trimL, ltrim_idem]

/-- C10: `_normalize_sql` removes exactly one trailing semicolon together with
surrounding whitespace, so a safe statement with one trailing `;` passes
validation and is executed by `SQLAgent.query`, while a remaining (non-final)
semicolon still fails validation. -/
theorem normalize_sql_trailing_semicolon (l m : List Char) (top_n : Nat)
    (categories : List String) (db : List Char → SqlExec) (gen2 : List Char)
    (summarize : List Char → SqlExec → String) (question answer_lang : String)
    (h1 : is_safe_sqlL (trimL l) = true)
    (h2 : ';' ∈ normalize_sqlL m) :
    normalize_sqlL (l ++ [';']) = trimL l ∧
      is_safe_sqlL (normalize_sqlL (l ++ [';'])) = true ∧
      is_safe_sqlL (normalize_sqlL m) = false ∧
      ∃ out, query top_n categories db (l ++ [';']) gen2 summarize
          question answer_lang = .ok out ∧ out.sql_initial = trimL l := by
  have hnorm : normalize_sqlL (l ++ [';']) = trimL l := by
    have htrim : trimL (l ++ [';']) = ltrim l ++ [';'] := by
      rw [trimL, ltrim_concat_semicolon, rtrim_concat_semicolon]
    rw [normalize_sqlL]
    simp only [htrim]
    rw [if_pos (by simp), List.dropLast_concat, trimL_ltrim]
  have hsafe : is_safe_sqlL (normalize_sqlL (l ++ [';'])) = true := by
    rw [hnorm]; exact h1
  have hrej : is_safe_sqlL (normalize_sqlL m) = false := by
    rw [Bool.eq_false_iff]
    intro ht
    rw [is_safe_sqlL_eq_true] at ht
    apply ht.2.2
    have : pyToLower ';' ∈ lowerL (normalize_sqlL m) :=
      List.mem_map_of_mem pyToLower h2
    simpa [show pyToLower ';' = ';' from by decide] using this
  refine ⟨hnorm, hsafe, hrej, ?_⟩
  unfold query
  simp only [hnorm]
  rw [if_pos h1]
  by_cases he : (run_sql top_n db (trimL l)).rows.length = 0
  · rw [if_pos he]
    by_cases hf : is_safe_sqlL (normalize_sqlL gen2) = true
    · rw [if_pos hf]
      exact ⟨_, rfl, rfl⟩
    · rw [if_neg hf]
      exact ⟨_, rfl, rfl⟩
  · rw [if_neg he]
    exact ⟨_, rfl, rfl⟩

/-- C10 witness: evaluation at a concrete statement with one trailing
semicolon and a concrete statement with an interior semicolon. -/
theorem normalize_sql_trailing_semicolon_witness :
    is_safe_sqlL (trimL "select a from t ".toList) = true ∧
      ';' ∈ normalize_sqlL "select 1; select 2".toList ∧
      (normalize_sqlL ("select a from t ".toList ++ [';'])
          = trimL "select a from t ".toList ∧
        is_safe_sqlL (normalize_sqlL ("select a from t ".toList ++ [';'])) = true ∧
        is_safe_sqlL (normalize_sqlL "select 1; select 2".toList) = false ∧
        ∃ out, query 20 [] (fun _ => { columns := [], rows := [] })
            ("select a from t ".toList ++ [';']) "select a from t".toList
            (fun _ _ => "") "q" "id" = .ok out ∧
          out.sql_initial = trimL "select a from t ".toList) :=
  ⟨by decide, by decide,
   normalize_sql_trailing_semicolon "select a from t ".toList
     "select 1; select 2".toList 20 [] _ "select a from t".toList
     (fun _ _ => "") "q" "id" (by decide) (by decide)⟩

end SQLAgent

namespace RAGAgent

/-- A metadata value: the payloads and side-table rows carry strings and
numbers. -/
inductive MVal
  | s (v : String)
  | q (v : ℚ)
deriving DecidableEq, Repr

/-- A scored hit returned by the nearest-neighbor backend
(`qdrant.query_points(...).points`): identifier, score, optional payload. -/
structure Hit where
  id : String
  score : ℚ
  payload : Option (List (String × MVal))
deriving DecidableEq, Repr

/-- A row of the `rag_products.csv` side table (indexed by `doc_id`). -/
structure SideRow where
  product_id : String
  product_category_en : String
  seller_id : String
  seller_city : String
  avg_review_score : ℚ
  doc_text : String
deriving DecidableEq, Repr

/-- The `Document` dataclass.  The Python dataclass annotates `text : str`
but does not enforce it; the fallback branch copies whatever value the
payload holds, so `text` is an `MVal` here. -/
structure Document where
  id : String
  text : MVal
  metadata : List (String × MVal)
deriving DecidableEq, Repr

/-- Side-table lookup `doc_id in self._df.index` / `self._df.loc[doc_id]`. -/
def lookupRow (table : List (String × SideRow)) (id : String) : Option SideRow :=
  (table.find? (fun kv => kv.1 = id)).map (·.2)

/-- The metadata dictionary built for a hit whose identifier is present in
the side table. -/
def rowMetadata (row : SideRow) (score : ℚ) : List (String × MVal) :=
  [("product_id", .s row.product_id),
   ("product_category_en", .s row.product_category_en),
   ("seller_id", .s row.seller_id),
   ("seller_city", .s row.seller_city),
   ("avg_review_score", .q row.avg_review_score),
   ("score", .q score)]

/-- The per-hit body of `RAGAgent.search`: if the identifier is absent from
the side table, metadata falls back to the raw payload (`h.payload or {}`)
and text to the payload's `doc_text` value or `""`; otherwise both are
derived from the side-table row. -/
def mkDocument (table : List (String × SideRow)) (h : Hit) : Document :=
  match lookupRow table h.id with
  | none =>
    let metadata := h.payload.getD []
    { id := h.id,
      text := ((metadata.find? (fun kv => kv.1 = "doc_text")).map (·.2)).getD (.s ""),
      metadata := metadata }
  | some row =>
    { id := h.id, text := .s row.doc_text, metadata := rowMetadata row h.score }

/-- `RAGAgent.search` after embedding and nearest-neighbor lookup: enrich
each hit in backend order. -/
def search (table : List (String × SideRow)) (hits : List Hit) : List Document :=
  hits.map (mkDocument table)

/-- C9: `search` never fails on a hit missing from the side table: such a
document's metadata is the raw payload (an empty mapping when the payload is
absent) and its text is the payload's `doc_text` value or `""`; hits whose
identifier is present get row-derived metadata.  One output document per
hit, in backend order. -/
theorem search_metadata_fallback (table : List (String × SideRow))
    (hits : List Hit) (i : Nat) (h : Hit) (d : Document)
    (hh : hits[i]? = some h) (hd : (search table hits)[i]? = some d) :
    (search table hits).length = hits.length ∧
      (lookupRow table h.id = none →
        d.metadata = h.payload.getD [] ∧
          d.text = (((h.payload.getD []).find?
              (fun kv => kv.1 = "doc_text")).map (·.2)).getD (.s "")) ∧
      (∀ row, lookupRow table h.id = some row →
        d.metadata = rowMetadata row h.score ∧ d.text = .s row.doc_text) := by
  have hlen : (search table hits).length = hits.length := by
    simp [search]
  have hd' : d = mkDocument table h := by
    rw [search, List.getElem?_map, hh] at hd
    simpa using hd.symm
  refine ⟨hlen, ?_, ?_⟩
  · intro hnone
    rw [hd', mkDocument, hnone]
    exact ⟨rfl, rfl⟩
  · intro row hrow
    rw [hd', mkDocument, hrow]
    exact ⟨rfl, rfl⟩

/-- Concrete side table for the C9 witness. -/
def wTable : List (String × SideRow) :=
  [("d1", SideRow.mk "p1" "electronics" "s1" "sao paulo" 4 "great")]

/-- Concrete backend hit whose identifier is absent from `wTable`. -/
def wHit : Hit :=
  { id := "d9", score := 2,
    payload := some [("doc_text", MVal.s "raw text"), ("k", MVal.q 3)] }

/-- Concrete hit list for the C9 witness. -/
def wHits : List Hit := [wHit, { id := "d1", score := 1, payload := none }]

/-- The document `search` produces for `wHit`. -/
def wDoc : Document := mkDocument wTable wHit

/-- C9 witness: a two-hit search where the first identifier is missing from
the side table and the document falls back to the raw payload. -/
theorem search_metadata_fallback_witness :
    wHits[0]? = some wHit ∧ (search wTable wHits)[0]? = some wDoc ∧
      ((search wTable wHits).length = wHits.length ∧
        (lookupRow wTable wHit.id = none →
          wDoc.metadata = wHit.payload.getD [] ∧
            wDoc.text = (((wHit.payload.getD []).find?
                (fun kv => kv.1 = "doc_text")).map (·.2)).getD (.s "")) ∧
        (∀ row, lookupRow wTable wHit.id = some row →
          wDoc.metadata = rowMetadata row wHit.score ∧
            wDoc.text = .s row.doc_text)) :=
  ⟨by decide, by decide,
   search_metadata_fallback wTable wHits 0 wHit wDoc (by decide) (by decide)⟩

end RAGAgent

namespace Analytics

/-- An in-memory pandas DataFrame: column names plus rows of storage
values. -/
structure Df where
  cols : List String
  rows : List (List SQLAgent.DbVal)
deriving DecidableEq, Repr

/-- `df.head(n).to_dict(orient="records")`. -/
def dfRecords (df : Df) (n : Nat) : List (List (String × SQLAgent.DbVal)) :=
  (df.rows.take n).map (fun r => df.cols.zip r)

/-- The compact EDA summary dictionary built by `EDAAgent.run`.  The
statistics themselves are plain data wrangling (spec §1 excludes them); only
the shape of the record matters to the pipeline contract. -/
structure Eda where
  shape : List Nat
  columns : List String
  missing_top : List (String × ℚ)
  numeric_describe_columns : List String
  numeric_describe_rows : List (List RAGAgent.MVal)
  category_top : List (String × List (String × Nat))
  time_ranges : List (String × String × String)
deriving DecidableEq, Repr

/-- One labeled insight `{title, finding, evidence, impact}`. -/
structure Insight where
  title : String
  finding : String
  evidence : String
  impact : String
deriving DecidableEq, Repr

/-- The fixed placeholder entry `InsightAgent.run` pads with. -/
def placeholderInsight : Insight :=
  { title := "Insight tambahan (butuh data)",
    finding := "EDA saat ini belum cukup untuk menyimpulkan poin ini secara kuantitatif.",
    evidence := "Perlu query/EDA tambahan.",
    impact := "Menentukan prioritas analisis lanjutan." }

/-- The final compact analytics artifact. -/
structure AnalyticsArtifact where
  headline : String
  insights : List Insight
  next_questions : List String
deriving DecidableEq, Repr

/-- The best-effort JSON parse of the oracle reply in `InsightAgent.run`:
`none` models parse failure; a parsed object may lack the `insights` key. -/
structure RawArtifact where
  headline : String
  insights : Option (List Insight)
  next_questions : List String
deriving DecidableEq, Repr

/-- The empty-insights skeleton used on parse failure. -/
def emptySkeleton : RawArtifact :=
  { headline := "Analytics summary", insights := some [], next_questions := [] }

/-- The hard guard in `InsightAgent.run`: truncate above 5, pad with
`placeholderInsight` below 5. -/
def clampInsights (l : List Insight) : List Insight :=
  let t := if l.length > 5 then l.take 5 else l
  t ++ List.replicate (5 - t.length) placeholderInsight

/-- A value stored in the shared pipeline context. -/
inductive CtxVal
  | table (df : Df)
  | records (rs : List (List (String × SQLAgent.DbVal)))
  | strs (l : List String)
  | nats (l : List Nat)
  | text (s : String)
  | eda (e : Eda)
  | artifact (a : AnalyticsArtifact)
deriving DecidableEq, Repr

/-- The shared context dictionary threaded through the pipeline. -/
abbrev Ctx := List (String × CtxVal)

/-- Python dict assignment `ctx[k] = v`. -/
def ctxSet (ctx : Ctx) (k : String) (v : CtxVal) : Ctx :=
  if ctx.any (fun kv => kv.1 = k) then
    ctx.map (fun kv => if kv.1 = k then (k, v) else kv)
  else ctx ++ [(k, v)]

/-- Python dict lookup `ctx.get(k)`. -/
def ctxGet? (ctx : Ctx) (k : String) : Option CtxVal :=
  (ctx.find? (fun kv => kv.1 = k)).map (·.2)

/-- Python membership test `k in ctx`. -/
def ctxHas (ctx : Ctx) (k : String) : Bool := ctx.any (fun kv => kv.1 = k)

theorem ctxHas_ctxSet_ne (ctx : Ctx) {a k : String} (v : CtxVal) (hne : a ≠ k) :
    ctxHas (ctxSet ctx a v) k = ctxHas ctx k := by
  unfold ctxHas ctxSet
  by_cases hmem : ctx.any (fun kv => kv.1 = a) = true
  · rw [if_pos hmem, List.any_map]
    congr 1
    funext kv
    by_cases hk : kv.1 = a
    · simp [hk, hne]
    · simp [hk]
  · rw [if_neg hmem, List.any_append]
    simp [hne]

/-- `DataAgent.run`.  The pandas load/merge that builds the full per-order
table (with the derived `delivery_delay` feature) is spec-excluded data
wrangling and enters as `mergedDf`; the step writes the private table and
the three public preview keys into the context. -/
def dataAgentRun (mergedDf : Df) (ctx : Ctx) : String × Ctx :=
  let c1 := ctxSet ctx "_orders_merged_df" (.table mergedDf)
  let c2 := ctxSet c1 "orders_merged_preview" (.records (dfRecords mergedDf 20))
  let c3 := ctxSet c2 "orders_merged_columns" (.strs mergedDf.cols)
  let c4 := ctxSet c3 "orders_merged_shape"
    (.nats [mergedDf.rows.length, mergedDf.cols.length])
  ("Loaded and merged datasets.", c4)

/-- The result dictionary of `EDAAgent.run`. -/
structure EdaStep where
  summary : String
  eda : Eda
  context : Ctx
deriving DecidableEq, Repr

/-- `EDAAgent.run`: raises `ValueError` when stage 1's output key is absent
from the context; otherwise computes the compact statistics of the stored
table (`computeEda`, spec-excluded wrangling) and stores them under `"eda"`.
A non-DataFrame value under the key would make the pandas calls raise,
modelled as the second error case. -/
def edaAgentRun (computeEda : Df → Eda) (ctx : Ctx) : Except String EdaStep :=
  if ¬ ctxHas ctx "orders_merged" then
    .error "orders_merged not found in context. Run DataAgent first."
  else
    match ctxGet? ctx "orders_merged" with
    | some (.table df) =>
      let e := computeEda df
      .ok { summary := "Computed compact EDA.", eda := e,
            context := ctxSet ctx "eda" (.eda e) }
    | _ => .error "AttributeError"

/-- The result dictionary of `InsightAgent.run`. -/
structure InsightStep where
  summary : String
  analytics : AnalyticsArtifact
  context : Ctx
deriving DecidableEq, Repr

/-- Outcome of the inline best-effort JSON parse in `InsightAgent.run`:
`json.loads(txt)`, and on failure a `re.search` for a brace-delimited
substring followed by a second `json.loads(m.group())` that sits outside
the `try`.  The reply text is opaque oracle output; the stage's behavior
depends only on which case the parse lands in. -/
inductive InsightParse
  | mapping (p : RawArtifact)
  | noJson
  | nonMapping
  | decodeError
deriving DecidableEq, Repr

/-- `InsightAgent.run`: raises when `"eda"` is absent from the context.
Then the best-effort parse either yields a JSON object (`mapping`) or the
`emptySkeleton` (`noJson`: first `json.loads` failed and no brace-delimited
substring exists), on which the stage enforces the exactly-5 guard and
stores the artifact under `"analytics"`; or it raises — `decodeError` when
a brace-delimited substring exists but the unguarded second `json.loads`
fails on it, `nonMapping` when a parse produced a non-dict so that
`analytics.get("insights")` raises `AttributeError`. -/
def insightAgentRun (parsed : InsightParse) (ctx : Ctx) :
    Except String InsightStep :=
  match ctxGet? ctx "eda" with
  | some (.eda _) =>
    match parsed with
    | .decodeError => .error "json.decoder.JSONDecodeError"
    | .nonMapping => .error "AttributeError"
    | .mapping raw =>
      let artifact : AnalyticsArtifact :=
        { headline := raw.headline,
          insights := clampInsights (raw.insights.getD []),
          next_questions := raw.next_questions }
      .ok { summary := "Generated 5 insights from EDA.", analytics := artifact,
            context := ctxSet ctx "analytics" (.artifact artifact) }
    | .noJson =>
      let artifact : AnalyticsArtifact :=
        { headline := emptySkeleton.headline,
          insights := clampInsights (emptySkeleton.insights.getD []),
          next_questions := emptySkeleton.next_questions }
      .ok { summary := "Generated 5 insights from EDA.", analytics := artifact,
            context := ctxSet ctx "analytics" (.artifact artifact) }
  | _ => .error "EDA not found in context. Run EDAAgent first."

/-- The final dictionary of `OrchestratorAgent.run`. -/
structure OrchStep where
  summary : String
  analytics : AnalyticsArtifact
  context : Ctx
deriving DecidableEq, Repr

/-- `OrchestratorAgent.run`: the fixed 3-stage pipeline DataAgent → EDAAgent
→ InsightAgent, threading the context; Python exceptions propagate as
`Except.error`.  `ChatAgent` invokes it with `context = none`. -/
def orchestratorRun (mergedDf : Df) (computeEda : Df → Eda)
    (parsedInsights : InsightParse) (task : String)
    (context : Option Ctx) : Except String OrchStep :=
  let ctx0 := ctxSet (context.getD []) "user_task" (.text task)
  let step1 := dataAgentRun mergedDf ctx0
  let ctx1 := step1.2
  match edaAgentRun computeEda ctx1 with
  | .error e => .error e
  | .ok step2 =>
    match insightAgentRun parsedInsights step2.context with
    | .error e => .error e
    | .ok step3 =>
      .ok { summary := step3.summary, analytics := step3.analytics,
            context := step3.context }

/-- C1 (key mismatch): `DataAgent.run` stores the merged table only under
`"_orders_merged_df"` (plus the three preview keys), while `EDAAgent.run`
requires the key `"orders_merged"`; hence every pipeline run whose incoming
context lacks `"orders_merged"` — in particular every run started by
`ChatAgent`, which passes no context — takes stage 2's 'stage-1 output
absent' error branch. -/
theorem orchestrator_stage2_key_mismatch (mergedDf : Df) (computeEda : Df → Eda)
    (parsedInsights : InsightParse) (task : String) (context : Option Ctx)
    (h : ctxHas (context.getD []) "orders_merged" = false) :
    orchestratorRun mergedDf computeEda parsedInsights task context
      = .error "orders_merged not found in context. Run DataAgent first." := by
  have hkeys : ctxHas (dataAgentRun mergedDf
      (ctxSet (context.getD []) "user_task" (.text task))).2 "orders_merged"
      = false := by
    show ctxHas
        (ctxSet (ctxSet (ctxSet (ctxSet (ctxSet (context.getD []) "user_task"
            (.text task)) "_orders_merged_df" (.table mergedDf))
            "orders_merged_preview" (.records (dfRecords mergedDf 20)))
            "orders_merged_columns" (.strs mergedDf.cols))
            "orders_merged_shape" (.nats [mergedDf.rows.length, mergedDf.cols.length]))
        "orders_merged" = false
    rw [ctxHas_ctxSet_ne _ _ (by decide), ctxHas_ctxSet_ne _ _ (by decide),
      ctxHas_ctxSet_ne _ _ (by decide), ctxHas_ctxSet_ne _ _ (by decide),
      ctxHas_ctxSet_ne _ _ (by decide)]
    exact h
  have herr : edaAgentRun computeEda (dataAgentRun mergedDf
      (ctxSet (context.getD []) "user_task" (.text task))).2
      = .error "orders_merged not found in context. Run DataAgent first." := by
    unfold edaAgentRun
    rw [if_pos (by rw [hkeys]; decide)]
  simp only [orchestratorRun]
  rw [herr]

/-- C1 witness: the pipeline as invoked by `ChatAgent` (no incoming context)
on a tiny one-column table. -/
theorem orchestrator_stage2_key_mismatch_witness :
    ctxHas ((none : Option Ctx).getD []) "orders_merged" = false ∧
      orchestratorRun (Df.mk ["a"] [[SQLAgent.DbVal.int 1]])
          (fun _ => Eda.mk [1, 1] ["a"] [] [] [] [] [])
          .noJson "analyze the dataset" none
        = .error "orders_merged not found in context. Run DataAgent first." :=
  ⟨by decide,
   orchestrator_stage2_key_mismatch _ _ .noJson "analyze the dataset" none (by decide)⟩

end Analytics

namespace ChatAgent

/-- The `ChatState` dataclass: the caller-persisted conversational state. -/
structure ChatState where
  last_intent : Option String := none
  last_sql : Option String := none
  last_sql_columns : Option (List String) := none
  last_sql_preview_rows : Option (List SQLAgent.Row) := none
  last_rag_top_sources : Option (List (List (String × RAGAgent.MVal))) := none
deriving DecidableEq, Repr

/-- What `_safe_json_load` extracted from the routing reply: `none` models
an unparseable reply; any key may be absent. -/
structure RouteParsed where
  intent : Option String := none
  reason : Option String := none
  need_followup : Option Bool := none
  followup_question : Option String := none
deriving DecidableEq, Repr

/-- The five intent literals accepted by the router. -/
def INTENTS : List String := ["sql", "rag", "analytics", "hybrid", "general"]

/-- The routing decision returned by `_route_intent`. -/
structure RouteDecision where
  intent : String
  reason : String
  need_followup : Bool
  followup_question : String
deriving DecidableEq, Repr

/-- The non-raising tail of `ChatAgent._route_intent`: `parsed` is the
value `_safe_json_load` handed back, with `none` standing for `None` or a
falsy value (which the `if not parsed:` guard sends to the fixed hybrid
fallback) and `some p` for a truthy JSON object.  On an object the `intent`
value is stripped and lowercased, and any value outside the five literals
coerces to `"hybrid"`.  The parse outcomes on which `_route_intent` raises
instead never reach this code; they are modelled by `route_intent_full`. -/
def route_intent (parsed : Option RouteParsed) : RouteDecision :=
  match parsed with
  | none =>
    { intent := "hybrid", reason := "Fallback", need_followup := false,
      followup_question := "" }
  | some p =>
    let i := pyStripLower (p.intent.getD "hybrid")
    { intent := if INTENTS.contains i then i else "hybrid",
      reason := pyStrip (p.reason.getD ""),
      need_followup := p.need_followup.getD false,
      followup_question := pyStrip (p.followup_question.getD "") }

theorem route_intent_mem (parsed : Option RouteParsed) :
    (route_intent parsed).intent ∈ INTENTS := by
  cases parsed with
  | none => decide
  | some p =>
    simp only [route_intent]
    by_cases hc : INTENTS.contains (pyStripLower (p.intent.getD "hybrid")) = true
    · rw [if_pos hc]
      simpa using hc
    · rw [if_neg hc]
      decide

/-- A raw per-tool output stored in `tool_outputs`. -/
inductive ToolOutput
  | sql (o : SQLAgent.SqlQueryOutput)
  | rag (answer : String) (sources : List (List (String × RAGAgent.MVal)))
  | analytics (o : Analytics.OrchStep)
  | general
deriving DecidableEq, Repr

/-- The oracle- and tool-supplied values one turn of `ChatAgent.chat`
consumes: the parsed routing reply, what each tool returns if dispatched
this turn, and the composed final answer (`_compose_answer`, opaque). -/
structure ChatTurnInputs where
  routeParsed : Option RouteParsed
  sqlOut : SQLAgent.SqlQueryOutput
  ragAnswer : String
  ragSources : List (List (String × RAGAgent.MVal))
  analyticsOut : Analytics.OrchStep
  composed : String
deriving DecidableEq, Repr

/-- The `debug` record attached when `show_debug` is set. -/
structure DebugInfo where
  intent : String
  reason : String
  used_tools : List String
deriving DecidableEq, Repr

/-- The dictionary returned by `ChatAgent.chat` (`debug` key present iff
`show_debug`; `tool_outputs` always present). -/
structure ChatResponse where
  final_answer : String
  used_tools : List String
  tool_outputs : List (String × ToolOutput)
  state : ChatState
  debug : Option DebugInfo
deriving DecidableEq, Repr

/-- `ChatAgent.chat`: route, dispatch per resolved intent, compose, update
the state, attach `debug` iff `show_debug`.  Tool-level exceptions abort
the whole turn in Python and are outside this model, whose per-tool results
are turn inputs. -/
def chat (inp : ChatTurnInputs) (state : Option ChatState) (show_debug : Bool) :
    ChatResponse :=
  let cur0 := state.getD {}
  let route := route_intent inp.routeParsed
  let intent := route.intent
  let dispatch : List String × List (String × ToolOutput) :=
    if intent = "sql" then (["SQLAgent"], [("sql", .sql inp.sqlOut)])
    else if intent = "rag" then
      (["RAGAgent"], [("rag", .rag inp.ragAnswer inp.ragSources)])
    else if intent = "analytics" then
      (["OrchestratorAgent"], [("analytics", .analytics inp.analyticsOut)])
    else if intent = "hybrid" then
      (["SQLAgent", "RAGAgent"],
       [("sql", .sql inp.sqlOut), ("rag", .rag inp.ragAnswer inp.ragSources)])
    else ([], [("general", .general)])
  let used_tools := dispatch.1
  let tool_outputs := dispatch.2
  let st1 := { cur0 with last_intent := some intent }
  let st2 :=
    match tool_outputs.lookup "sql" with
    | some (.sql o) =>
      { st1 with last_sql_columns := some o.result.columns,
                 last_sql_preview_rows := some (o.result.rows.take 5) }
    | _ => st1
  let st3 :=
    match tool_outputs.lookup "rag" with
    | some (.rag _ sources) =>
      { st2 with last_rag_top_sources := some (sources.take 3) }
    | _ => st2
  { final_answer := inp.composed, used_tools := used_tools,
    tool_outputs := tool_outputs, state := st3,
    debug :=
      if show_debug then
        some { intent := intent, reason := route.reason, used_tools := used_tools }
      else none }

/-- C2 amended: after a completed turn, `last_intent` is the resolved
intent; `last_sql_columns` and `last_sql_preview_rows` (truncated to 5) are
set iff the SQL tool ran; `last_rag_top_sources` (capped at 3) is set iff
the retrieval tool ran; fields of tools that did not run keep their input
values; and `last_sql` is never written, keeping its input value even when
the SQL tool ran. -/
theorem chat_state_update (inp : ChatTurnInputs) (state : Option ChatState)
    (show_debug : Bool) :
    (chat inp state show_debug).state.last_intent
        = some (route_intent inp.routeParsed).intent ∧
      (chat inp state show_debug).state.last_sql = (state.getD {}).last_sql ∧
      (chat inp state show_debug).state.last_sql_columns
        = (if (route_intent inp.routeParsed).intent = "sql" ∨
              (route_intent inp.routeParsed).intent = "hybrid"
           then some inp.sqlOut.result.columns
           else (state.getD {}).last_sql_columns) ∧
      (chat inp state show_debug).state.last_sql_preview_rows
        = (if (route_intent inp.routeParsed).intent = "sql" ∨
              (route_intent inp.routeParsed).intent = "hybrid"
           then some (inp.sqlOut.result.rows.take 5)
           else (state.getD {}).last_sql_preview_rows) ∧
      (chat inp state show_debug).state.last_rag_top_sources
        = (if (route_intent inp.routeParsed).intent = "rag" ∨
              (route_intent inp.routeParsed).intent = "hybrid"
           then some (inp.ragSources.take 3)
           else (state.getD {}).last_rag_top_sources) := by
  have hmem := route_intent_mem inp.routeParsed
  simp only [INTENTS, List.mem_cons, List.not_mem_nil, or_false] at hmem
  rcases hmem with h | h | h | h | h <;>
    simp [chat, h, List.lookup]

/-- C2 counterexample input: a turn routed to the SQL tool whose executed
query text differs from the stored `last_sql`. -/
def wSqlTurn : ChatTurnInputs :=
  { routeParsed := some { intent := some "sql" },
    sqlOut :=
      { question := "q", answer_lang := "id",
        sql_initial := "select 9 from t".toList,
        sql_used := "select 9 from t".toList, sql_fallback := [],
        used_fallback := false,
        result := { columns := ["a"], rows := [[SQLAgent.DbVal.int 9]] },
        summary := "", categories := [] },
    ragAnswer := "", ragSources := [], analyticsOut := ⟨"", ⟨"", [], []⟩, []⟩,
    composed := "" }

/-- Input state for the C2 counterexample. -/
def wOldState : ChatState := { last_sql := some "select OLD" }

/-- C2 counterexample: the SQL tool ran this turn, yet `last_sql` still
holds the previous turn's value rather than anything taken from the SQL
tool's result — the claim's "sets the last_sql* fields" is false for
`last_sql`, which `ChatAgent.chat` never writes. -/
theorem chat_last_sql_never_set :
    (chat wSqlTurn (some wOldState) false).used_tools = ["SQLAgent"] ∧
      (chat wSqlTurn (some wOldState) false).state.last_sql = some "select OLD" ∧
      String.mk wSqlTurn.sqlOut.sql_used = "select 9 from t" ∧
      ("select OLD" : String) ≠ "select 9 from t" := by
  refine ⟨?_, ?_, rfl, by decide⟩ <;> rfl

/-- C2 witness: evaluation of the amended state-update contract on the
concrete SQL-routed turn. -/
theorem chat_state_update_witness :
    (chat wSqlTurn (some wOldState) false).state.last_intent
        = some (route_intent wSqlTurn.routeParsed).intent ∧
      (chat wSqlTurn (some wOldState) false).state.last_sql
        = ((some wOldState : Option ChatState).getD {}).last_sql ∧
      (chat wSqlTurn (some wOldState) false).state.last_sql_columns
        = (if (route_intent wSqlTurn.routeParsed).intent = "sql" ∨
              (route_intent wSqlTurn.routeParsed).intent = "hybrid"
           then some wSqlTurn.sqlOut.result.columns
           else ((some wOldState : Option ChatState).getD {}).last_sql_columns) ∧
      (chat wSqlTurn (some wOldState) false).state.last_sql_preview_rows
        = (if (route_intent wSqlTurn.routeParsed).intent = "sql" ∨
              (route_intent wSqlTurn.routeParsed).intent = "hybrid"
           then some (wSqlTurn.sqlOut.result.rows.take 5)
           else ((some wOldState : Option ChatState).getD {}).last_sql_preview_rows) ∧
      (chat wSqlTurn (some wOldState) false).state.last_rag_top_sources
        = (if (route_intent wSqlTurn.routeParsed).intent = "rag" ∨
              (route_intent wSqlTurn.routeParsed).intent = "hybrid"
           then some (wSqlTurn.ragSources.take 3)
           else ((some wOldState : Option ChatState).getD {}).last_rag_top_sources) :=
  chat_state_update wSqlTurn (some wOldState) false

/-- Outcome of `ChatAgent._safe_json_load` on the routing reply, as
`_route_intent` consumes it: `json.loads` of the fence-stripped text, and
on failure a `re.search` for a brace-delimited substring followed by a
second `json.loads(m.group())` that sits outside the `try`.  `mapping` is
a truthy JSON object; `falsy` is `None` (no braces found) or a falsy parse
(`{}`, `[]`, `""`, `0`, `false`, `null`), both sent to the fixed fallback
by `if not parsed:`; `truthyNonMapping` is a truthy non-object, on which
`parsed.get("intent", ...)` raises `AttributeError`; `decodeError` is a
brace-delimited but still malformed substring, on which the unguarded
second `json.loads` raises. -/
inductive RouteParse
  | mapping (p : RouteParsed)
  | falsy
  | truthyNonMapping
  | decodeError
deriving DecidableEq, Repr

/-- The `Optional[Dict]` value seen past the parse in the two non-raising
outcomes. -/
def RouteParse.parsed? : RouteParse → Option RouteParsed
  | .mapping p => some p
  | _ => none

/-- `ChatAgent._route_intent` over the full range of parse outcomes: the
two raising outcomes propagate as exceptions, the rest reduce to
`route_intent`. -/
def route_intent_full : RouteParse → Except String RouteDecision
  | .decodeError => .error "json.decoder.JSONDecodeError"
  | .truthyNonMapping => .error "AttributeError"
  | outcome => .ok (route_intent outcome.parsed?)

/-- One full `ChatAgent.chat` turn including the routing parse: a raising
parse outcome propagates out of `_route_intent` and aborts the turn before
any dispatch, state update or response; otherwise the turn is exactly
`chat` on the parsed value. -/
def chat_full (outcome : RouteParse) (inp : ChatTurnInputs)
    (state : Option ChatState) (show_debug : Bool) : Except String ChatResponse :=
  match route_intent_full outcome with
  | .error e => .error e
  | .ok _ => .ok (chat { inp with routeParsed := outcome.parsed? } state show_debug)

/-- C7 counterexample: the oracle intent value `"SQL"` is not one of the
five lowercase literals, yet the router resolves it to `"sql"` (after
strip/lower) and dispatches only the SQL tool, not `hybrid`'s pair. -/
theorem route_intent_case_insensitive_counterexample :
    INTENTS.contains "SQL" = false ∧
      (route_intent (some { intent := some "SQL" })).intent = "sql" ∧
      (chat { wSqlTurn with routeParsed := some { intent := some "SQL" } }
          none false).used_tools = ["SQLAgent"] := by
  refine ⟨by decide, by decide, ?_⟩
  rfl

/-- C7 amended: when the routing reply's best-effort parse completes
without raising and yields no object (`None` / a falsy value) or an object
whose intent value after stripping and lowercasing is outside the five
literals, the router resolves the intent to `"hybrid"` and dispatches both
the SQL tool and the retrieval tool without raising; the two raising parse
outcomes — a brace-delimited but malformed substring (the second
`json.loads` is outside the `try`) and a truthy non-object (`parsed.get`
raises) — abort the turn instead. -/
theorem route_intent_unknown_coerces_hybrid (outcome : RouteParse)
    (inp : ChatTurnInputs) (state : Option ChatState) (show_debug : Bool)
    (hinp : inp.routeParsed = outcome.parsed?)
    (h : outcome = .falsy ∨
      ∃ p, outcome = .mapping p ∧
        INTENTS.contains (pyStripLower (p.intent.getD "hybrid")) = false) :
    route_intent_full outcome = .ok (route_intent inp.routeParsed) ∧
      (route_intent inp.routeParsed).intent = "hybrid" ∧
      chat_full outcome inp state show_debug = .ok (chat inp state show_debug) ∧
      (chat inp state show_debug).used_tools = ["SQLAgent", "RAGAgent"] ∧
      (chat inp state show_debug).tool_outputs
        = [("sql", .sql inp.sqlOut), ("rag", .rag inp.ragAnswer inp.ragSources)] ∧
      chat_full .decodeError inp state show_debug
        = .error "json.decoder.JSONDecodeError" ∧
      chat_full .truthyNonMapping inp state show_debug = .error "AttributeError" := by
  have hfull : route_intent_full outcome = .ok (route_intent outcome.parsed?) := by
    rcases h with rfl | ⟨p, rfl, _⟩ <;> rfl
  have hintent : (route_intent outcome.parsed?).intent = "hybrid" := by
    rcases h with rfl | ⟨p, rfl, hc⟩
    · rfl
    · simp only [RouteParse.parsed?, route_intent]
      rw [if_neg (by rw [hc]; decide)]
  have heta : { inp with routeParsed := outcome.parsed? } = inp := by
    rw [← hinp]
  have hchat : chat_full outcome inp state show_debug
      = .ok (chat inp state show_debug) := by
    rw [chat_full, hfull, heta]
  rw [hinp]
  exact ⟨hfull, hintent, hchat, by simp [chat, hinp, hintent],
    by simp [chat, hinp, hintent], rfl, rfl⟩

/-- The routing-reply object of the spec scenario
`{"intent": "unknown_value"}`. -/
def wUnknownParsed : RouteParsed := { intent := some "unknown_value" }

/-- A turn whose routing reply parsed to `wUnknownParsed`. -/
def wUnknownInp : ChatTurnInputs :=
  { wSqlTurn with routeParsed := some wUnknownParsed }

/-- C7 witness: the spec scenario `{"intent": "unknown_value"}`. -/
theorem route_intent_unknown_coerces_hybrid_witness :
    wUnknownInp.routeParsed = (RouteParse.mapping wUnknownParsed).parsed? ∧
      (RouteParse.mapping wUnknownParsed = .falsy ∨
        ∃ p, RouteParse.mapping wUnknownParsed = .mapping p ∧
          INTENTS.contains (pyStripLower (p.intent.getD "hybrid")) = false) ∧
      (route_intent_full (.mapping wUnknownParsed)
          = .ok (route_intent wUnknownInp.routeParsed) ∧
        (route_intent wUnknownInp.routeParsed).intent = "hybrid" ∧
        chat_full (.mapping wUnknownParsed) wUnknownInp none false
          = .ok (chat wUnknownInp none false) ∧
        (chat wUnknownInp none false).used_tools = ["SQLAgent", "RAGAgent"] ∧
        (chat wUnknownInp none false).tool_outputs
          = [("sql", .sql wUnknownInp.sqlOut),
             ("rag", .rag wUnknownInp.ragAnswer wUnknownInp.ragSources)] ∧
        chat_full .decodeError wUnknownInp none false
          = .error "json.decoder.JSONDecodeError" ∧
        chat_full .truthyNonMapping wUnknownInp none false
          = .error "AttributeError") :=
  ⟨rfl, Or.inr ⟨wUnknownParsed, rfl, by decide⟩,
   route_intent_unknown_coerces_hybrid (.mapping wUnknownParsed) wUnknownInp
     none false rfl (Or.inr ⟨wUnknownParsed, rfl, by decide⟩)⟩

/-- The wire response of the `/chat` endpoint (`backend/app/api.py`):
`tool_outputs` and `debug` are optional keys. -/
structure ApiResponse where
  final_answer : String
  used_tools : List String
  state : ChatState
  tool_outputs : Option (List (String × ToolOutput))
  debug : Option DebugInfo
deriving DecidableEq, Repr

/-- The `/chat` endpoint body: call `ChatAgent.chat`, then copy
`tool_outputs` and `debug` into the wire response only when the request set
`show_debug` (`resp["debug"] = out.get("debug") or {}`).  The endpoint's
final `sanitize` pass only rewrites values, never keys, and is modelled in
the Sanitizer section. -/
def apiChat (inp : ChatTurnInputs) (state : Option ChatState)
    (show_debug : Bool) : ApiResponse :=
  let out := chat inp state show_debug
  { final_answer := out.final_answer,
    used_tools := out.used_tools,
    state := out.state,
    tool_outputs := if show_debug then some out.tool_outputs else none,
    debug := if show_debug then some (out.debug.getD ⟨"", "", []⟩) else none }

/-- C6: the turn response carries the per-tool raw sanitized payloads and
the `{intent, reason, used_tools}` debug record iff `show_debug` is set;
with `show_debug` false neither key is present.  (Inside `ChatAgent.chat`
the debug key is already conditional; the `tool_outputs` key is filtered at
the endpoint.) -/
theorem api_debug_keys_iff_show_debug (inp : ChatTurnInputs)
    (state : Option ChatState) (show_debug : Bool) :
    (apiChat inp state show_debug).tool_outputs.isSome = show_debug ∧
      (apiChat inp state show_debug).debug.isSome = show_debug ∧
      (chat inp state show_debug).debug.isSome = show_debug ∧
      (show_debug = true →
        (apiChat inp state show_debug).tool_outputs
          = some (chat inp state show_debug).tool_outputs) := by
  cases show_debug <;> simp [apiChat, chat]

/-- C6 witness: evaluation with `show_debug` on and off at a concrete
turn. -/
theorem api_debug_keys_iff_show_debug_witness :
    ((apiChat wSqlTurn none false).tool_outputs.isSome = false ∧
        (apiChat wSqlTurn none false).debug.isSome = false ∧
        (chat wSqlTurn none false).debug.isSome = false ∧
        (false = true →
          (apiChat wSqlTurn none false).tool_outputs
            = some (chat wSqlTurn none false).tool_outputs)) ∧
      ((apiChat wSqlTurn none true).tool_outputs.isSome = true ∧
        (apiChat wSqlTurn none true).debug.isSome = true ∧
        (chat wSqlTurn none true).debug.isSome = true ∧
        (true = true →
          (apiChat wSqlTurn none true).tool_outputs
            = some (chat wSqlTurn none true).tool_outputs)) :=
  ⟨api_debug_keys_iff_show_debug wSqlTurn none false,
   api_debug_keys_iff_show_debug wSqlTurn none true⟩

end ChatAgent

namespace Sanitizer

/-- A Python float: a finite rational, or NaN, or ±Infinity. -/
inductive PyFloat
  | finite (q : ℚ)
  | nan
  | inf
  | ninf
deriving DecidableEq, Repr

/-- The non-finite test: `x != x or x in (inf, -inf)` in
`ChatAgent._sanitize_for_json`, `math.isnan(x) or math.isinf(x)` in the
endpoint's `_is_bad_float`. -/
def PyFloat.isBad : PyFloat → Bool
  | .finite _ => false
  | _ => true

/-- A scalar cell of a pandas DataFrame or Series. -/
inductive PCell
  | null
  | b (v : Bool)
  | i (v : Int)
  | f (v : PyFloat)
  | s (v : String)
  | dt (iso : String)
deriving DecidableEq, Repr

/-- A Python runtime value reaching a sanitizer.  Date/time-like values
carry their ISO-8601 / `str(...)` rendering; `obj` is any other object,
flagged by whether `json.dumps` accepts it, with its `str(...)` form. -/
inductive PVal
  | none
  | bool (b : Bool)
  | int (n : Int)
  | float (x : PyFloat)
  | str (s : String)
  | npInt (n : Int)
  | npBool (b : Bool)
  | npFloat (x : PyFloat)
  | datetime (iso : String)
  | pdTimestamp (iso : String)
  | pdTimedelta (sv : String)
  | npDatetime64 (sv : String)
  | npTimedelta64 (sv : String)
  | dataframe (cols : List String) (cells : List (List PCell))
  | series (name : String) (values : List PCell)
  | dict (kvs : List (String × PVal))
  | list (xs : List PVal)
  | tuple (xs : List PVal)
  | obj (jsonEncodable : Bool) (strForm : String)

/-- Cell conversion inside the DataFrame/Series branches of
`ChatAgent._sanitize_for_json`: `replace([inf, -inf], None)` and
`where(notnull, None)` send non-finite floats to `None`, and
datetime-typed columns are `strftime`-formatted to strings. -/
def cellChat : PCell → PVal
  | .null => .none
  | .b v => .bool v
  | .i v => .int v
  | .f v => if v.isBad then .none else .float v
  | .s v => .str v
  | .dt iso => .str iso

/-- Cell conversion inside the DataFrame/Series branches of the endpoint's
`sanitize`: `replace([np.nan, np.inf, -np.inf], None)` sends non-finite
floats to `None`; datetime cells stay `pd.Timestamp` objects. -/
def cellApi : PCell → PVal
  | .null => .none
  | .b v => .bool v
  | .i v => .int v
  | .f v => if v.isBad then .none else .float v
  | .s v => .str v
  | .dt iso => .pdTimestamp iso

/-- One record of `preview.to_dict(orient="records")`. -/
def zipRecord (conv : PCell → PVal) (cols : List String) (r : List PCell) :
    List (String × PVal) :=
  (cols.zip r).map (fun kv => (kv.1, conv kv.2))

mutual

/-- `ChatAgent._sanitize_for_json`, following the source's branch order:
`None`; datetime-likes to ISO/str; numpy scalars unboxed; non-finite floats
to `None`; DataFrame/Series to bounded `_type` preview dicts (30/50 rows);
mappings and sequences recursed (keys already strings here, as after
`str(k)`); finally the `json.dumps` probe with `str` fallback.  A total
function: every branch returns, matching the never-raises contract. -/
def sanitize_chat : PVal → PVal
  | .none => .none
  | .datetime iso => .str iso
  | .pdTimestamp iso => .str iso
  | .pdTimedelta sv => .str sv
  | .npDatetime64 sv => .str sv
  | .npTimedelta64 sv => .str sv
  | .npInt n => .int n
  | .npBool b => .bool b
  | .npFloat x => if x.isBad then .none else .float x
  | .float x => if x.isBad then .none else .float x
  | .dataframe cols cells =>
    .dict [("_type", .str "dataframe"),
           ("shape", .list [.int cells.length, .int cols.length]),
           ("columns", .list (cols.map .str)),
           ("rows", .list ((cells.take 30).map (fun r => .dict (zipRecord cellChat cols r))))]
  | .series name values =>
    .dict [("_type", .str "series"), ("name", .str name),
           ("values", .list ((values.take 50).map cellChat))]
  | .dict kvs => .dict (sanitizeFieldsChat kvs)
  | .list xs => .list (sanitizeListChat xs)
  | .tuple xs => .list (sanitizeListChat xs)
  | .str s => .str s
  | .int n => .int n
  | .bool b => .bool b
  | .obj j s => if j then .obj j s else .str s

/-- Recursion of `_sanitize_for_json` over list/tuple elements. -/
def sanitizeListChat : List PVal → List PVal
  | [] => []
  | x :: xs => sanitize_chat x :: sanitizeListChat xs

/-- Recursion of `_sanitize_for_json` over dict entries. -/
def sanitizeFieldsChat : List (String × PVal) → List (String × PVal)
  | [] => []
  | (k, v) :: kvs => (k, sanitize_chat v) :: sanitizeFieldsChat kvs

end

mutual

/-- The endpoint's `sanitize` (`backend/app/api.py`), following its branch
order: `None`; non-finite floats to `None`; numpy scalars unboxed;
DataFrame/Series to bounded `_type` preview dicts (50 rows); mappings and
sequences recursed; any other value returned unchanged (the scalar
`pd.isna` probe only affects NA scalars and is absorbed into the cell
conversion).  Total: every branch returns. -/
def sanitize_api : PVal → PVal
  | .none => .none
  | .float x => if x.isBad then .none else .float x
  | .npInt n => .int n
  | .npBool b => .bool b
  | .npFloat x => if x.isBad then .none else .float x
  | .dataframe cols cells =>
    .dict [("_type", .str "dataframe"),
           ("shape", .list [.int cells.length, .int cols.length]),
           ("columns", .list (cols.map .str)),
           ("rows", .list ((cells.take 50).map (fun r => .dict (zipRecord cellApi cols r))))]
  | .series name values =>
    .dict [("_type", .str "series"), ("name", .str name),
           ("values", .list ((values.take 50).map cellApi))]
  | .dict kvs => .dict (sanitizeFieldsApi kvs)
  | .list xs => .list (sanitizeListApi xs)
  | .tuple xs => .list (sanitizeListApi xs)
  | v => v

/-- Recursion of the endpoint's `sanitize` over list/tuple elements. -/
def sanitizeListApi : List PVal → List PVal
  | [] => []
  | x :: xs => sanitize_api x :: sanitizeListApi xs

/-- Recursion of the endpoint's `sanitize` over dict entries. -/
def sanitizeFieldsApi : List (String × PVal) → List (String × PVal)
  | [] => []
  | (k, v) :: kvs => (k, sanitize_api v) :: sanitizeFieldsApi kvs

end

/-- No non-finite float in a scalar cell. -/
def cellOk : PCell → Bool
  | .f x => !x.isBad
  | _ => true

mutual

/-- No NaN/Infinity float anywhere in a value tree. -/
def noBadFloat : PVal → Bool
  | .float x => !x.isBad
  | .npFloat x => !x.isBad
  | .dataframe _ cells => cells.all (fun r => r.all cellOk)
  | .series _ values => values.all cellOk
  | .dict kvs => noBadFields kvs
  | .list xs => noBadList xs
  | .tuple xs => noBadList xs
  | _ => true

/-- `noBadFloat` over list elements. -/
def noBadList : List PVal → Bool
  | [] => true
  | x :: xs => noBadFloat x && noBadList xs

/-- `noBadFloat` over dict entries. -/
def noBadFields : List (String × PVal) → Bool
  | [] => true
  | (_, v) :: kvs => noBadFloat v && noBadFields kvs

end

theorem cellOk_cellChat (c : PCell) : noBadFloat (cellChat c) = true := by
  cases c with
  | f x => cases x <;> simp [cellChat, PyFloat.isBad, noBadFloat]
  | _ => simp [cellChat, noBadFloat]

theorem cellOk_cellApi (c : PCell) : noBadFloat (cellApi c) = true := by
  cases c with
  | f x => cases x <;> simp [cellApi, PyFloat.isBad, noBadFloat]
  | _ => simp [cellApi, noBadFloat]

theorem noBadFields_zipRecord (conv : PCell → PVal)
    (hconv : ∀ c, noBadFloat (conv c) = true) :
    ∀ (cols : List String) (r : List PCell),
      noBadFields (zipRecord conv cols r) = true := by
  intro cols
  induction cols with
  | nil => intro r; rfl
  | cons c cs ih =>
    intro r
    cases r with
    | nil => rfl
    | cons x xs =>
      simp only [zipRecord, List.zip_cons_cons, List.map_cons, noBadFields,
        Bool.and_eq_true]
      exact ⟨hconv x, by simpa [zipRecord] using ih xs⟩

theorem noBadList_map_str (cols : List String) :
    noBadList (cols.map PVal.str) = true := by
  induction cols with
  | nil => rfl
  | cons c cs ih =>
    simp only [List.map_cons, noBadList, Bool.and_eq_true]
    exact ⟨rfl, ih⟩

theorem noBadList_map_record (conv : PCell → PVal)
    (hconv : ∀ c, noBadFloat (conv c) = true) (cols : List String) :
    ∀ rows : List (List PCell),
      noBadList (rows.map (fun r => PVal.dict (zipRecord conv cols r))) = true := by
  intro rows
  induction rows with
  | nil => rfl
  | cons r rs ih =>
    simp only [List.map_cons, noBadList, Bool.and_eq_true]
    refine ⟨?_, ih⟩
    simp only [noBadFloat]
    exact noBadFields_zipRecord conv hconv cols r

theorem noBadList_map_cell (conv : PCell → PVal)
    (hconv : ∀ c, noBadFloat (conv c) = true) :
    ∀ cs : List PCell, noBadList (cs.map conv) = true := by
  intro cs
  induction cs with
  | nil => rfl
  | cons c t ih =>
    simp only [List.map_cons, noBadList, Bool.and_eq_true]
    exact ⟨hconv c, ih⟩

theorem noBadList_of_forall :
    ∀ l : List PVal, (∀ x ∈ l, noBadFloat x = true) → noBadList l = true := by
  intro l
  induction l with
  | nil => intro _; rfl
  | cons x xs ih =>
    intro h
    simp only [noBadList, Bool.and_eq_true]
    exact ⟨h x (.head _), ih (fun y hy => h y (.tail _ hy))⟩

theorem noBadFloat_sanitize_chat_dataframe (cols : List String)
    (cells : List (List PCell)) :
    noBadFloat (sanitize_chat (.dataframe cols cells)) = true := by
  simp [sanitize_chat, noBadFloat, noBadFields, noBadList, noBadList_map_str]
  apply noBadList_of_forall
  intro x hx
  obtain ⟨r, _, rfl⟩ := List.mem_map.mp (List.mem_of_mem_take hx)
  simp only [noBadFloat]
  exact noBadFields_zipRecord cellChat cellOk_cellChat cols r

theorem noBadFloat_sanitize_chat_series (name : String) (values : List PCell) :
    noBadFloat (sanitize_chat (.series name values)) = true := by
  simp [sanitize_chat, noBadFloat, noBadFields, noBadList]
  apply noBadList_of_forall
  intro x hx
  obtain ⟨c, _, rfl⟩ := List.mem_map.mp (List.mem_of_mem_take hx)
  exact cellOk_cellChat c

theorem noBadFloat_sanitize_api_dataframe (cols : List String)
    (cells : List (List PCell)) :
    noBadFloat (sanitize_api (.dataframe cols cells)) = true := by
  simp [sanitize_api, noBadFloat, noBadFields, noBadList, noBadList_map_str]
  apply noBadList_of_forall
  intro x hx
  obtain ⟨r, _, rfl⟩ := List.mem_map.mp (List.mem_of_mem_take hx)
  simp only [noBadFloat]
  exact noBadFields_zipRecord cellApi cellOk_cellApi cols r

theorem noBadFloat_sanitize_api_series (name : String) (values : List PCell) :
    noBadFloat (sanitize_api (.series name values)) = true := by
  simp [sanitize_api, noBadFloat, noBadFields, noBadList]
  apply noBadList_of_forall
  intro x hx
  obtain ⟨c, _, rfl⟩ := List.mem_map.mp (List.mem_of_mem_take hx)
  exact cellOk_cellApi c

mutual

theorem noBadFloat_sanitize_chat : ∀ v, noBadFloat (sanitize_chat v) = true
  | .none => rfl
  | .datetime _ => rfl
  | .pdTimestamp _ => rfl
  | .pdTimedelta _ => rfl
  | .npDatetime64 _ => rfl
  | .npTimedelta64 _ => rfl
  | .npInt _ => rfl
  | .npBool _ => rfl
  | .npFloat x => by cases x <;> simp [sanitize_chat, PyFloat.isBad, noBadFloat]
  | .float x => by cases x <;> simp [sanitize_chat, PyFloat.isBad, noBadFloat]
  | .dataframe cols cells => noBadFloat_sanitize_chat_dataframe cols cells
  | .series name values => noBadFloat_sanitize_chat_series name values
  | .dict kvs => by
    simp only [sanitize_chat, noBadFloat]
    exact noBadFields_sanitizeFieldsChat kvs
  | .list xs => by
    simp only [sanitize_chat, noBadFloat]
    exact noBadList_sanitizeListChat xs
  | .tuple xs => by
    simp only [sanitize_chat, noBadFloat]
    exact noBadList_sanitizeListChat xs
  | .str _ => rfl
  | .int _ => rfl
  | .bool _ => rfl
  | .obj j s => by cases j <;> simp [sanitize_chat, noBadFloat]

theorem noBadList_sanitizeListChat : ∀ xs, noBadList (sanitizeListChat xs) = true
  | [] => rfl
  | x :: xs => by
    simp only [sanitizeListChat, noBadList, Bool.and_eq_true]
    exact ⟨noBadFloat_sanitize_chat x, noBadList_sanitizeListChat xs⟩

theorem noBadFields_sanitizeFieldsChat :
    ∀ kvs, noBadFields (sanitizeFieldsChat kvs) = true
  | [] => rfl
  | (k, v) :: kvs => by
    simp only [sanitizeFieldsChat, noBadFields, Bool.and_eq_true]
    exact ⟨noBadFloat_sanitize_chat v, noBadFields_sanitizeFieldsChat kvs⟩

end

mutual

theorem noBadFloat_sanitize_api : ∀ v, noBadFloat (sanitize_api v) = true
  | .none => rfl
  | .datetime _ => rfl
  | .pdTimestamp _ => rfl
  | .pdTimedelta _ => rfl
  | .npDatetime64 _ => rfl
  | .npTimedelta64 _ => rfl
  | .npInt _ => rfl
  | .npBool _ => rfl
  | .npFloat x => by cases x <;> simp [sanitize_api, PyFloat.isBad, noBadFloat]
  | .float x => by cases x <;> simp [sanitize_api, PyFloat.isBad, noBadFloat]
  | .dataframe cols cells => noBadFloat_sanitize_api_dataframe cols cells
  | .series name values => noBadFloat_sanitize_api_series name values
  | .dict kvs => by
    simp only [sanitize_api, noBadFloat]
    exact noBadFields_sanitizeFieldsApi kvs
  | .list xs => by
    simp only [sanitize_api, noBadFloat]
    exact noBadList_sanitizeListApi xs
  | .tuple xs => by
    simp only [sanitize_api, noBadFloat]
    exact noBadList_sanitizeListApi xs
  | .str _ => rfl
  | .int _ => rfl
  | .bool _ => rfl
  | .obj _ _ => rfl

theorem noBadList_sanitizeListApi : ∀ xs, noBadList (sanitizeListApi xs) = true
  | [] => rfl
  | x :: xs => by
    simp only [sanitizeListApi, noBadList, Bool.and_eq_true]
    exact ⟨noBadFloat_sanitize_api x, noBadList_sanitizeListApi xs⟩

theorem noBadFields_sanitizeFieldsApi :
    ∀ kvs, noBadFields (sanitizeFieldsApi kvs) = true
  | [] => rfl
  | (k, v) :: kvs => by
    simp only [sanitizeFieldsApi, noBadFields, Bool.and_eq_true]
    exact ⟨noBadFloat_sanitize_api v, noBadFields_sanitizeFieldsApi kvs⟩

end

/-- C8: both sanitizers are total Lean functions (never raise), their output
never contains a NaN/Infinity float anywhere — including inside mappings,
sequences and tabular previews — and every non-finite float (plain or
numpy, at top level, inside a mapping, a sequence, or a DataFrame cell)
comes out as null at its position. -/
theorem sanitize_no_nan_inf (v : PVal) (x : PyFloat) (h : x.isBad = true) :
    noBadFloat (sanitize_chat v) = true ∧
      noBadFloat (sanitize_api v) = true ∧
      sanitize_chat (.float x) = .none ∧
      sanitize_chat (.npFloat x) = .none ∧
      sanitize_api (.float x) = .none ∧
      sanitize_api (.npFloat x) = .none ∧
      sanitize_chat (.dict [("k", .float x)]) = .dict [("k", .none)] ∧
      sanitize_chat (.list [.float x]) = .list [.none] ∧
      sanitize_chat (.dataframe ["c"] [[.f x]])
        = .dict [("_type", .str "dataframe"), ("shape", .list [.int 1, .int 1]),
                 ("columns", .list [.str "c"]),
                 ("rows", .list [.dict [("c", .none)]])] ∧
      sanitize_api (.dict [("k", .npFloat x)]) = .dict [("k", .none)] := by
  refine ⟨noBadFloat_sanitize_chat v, noBadFloat_sanitize_api v, ?_, ?_, ?_, ?_,
    ?_, ?_, ?_, ?_⟩ <;>
    simp [sanitize_chat, sanitize_api, sanitizeFieldsChat, sanitizeListChat,
      sanitizeFieldsApi, zipRecord, cellChat, h]

/-- C8 witness: evaluation at NaN nested inside a mapping together with a
tabular value holding an infinity. -/
theorem sanitize_no_nan_inf_witness :
    PyFloat.nan.isBad = true ∧
      (noBadFloat (sanitize_chat (.dict [("a", .float .nan),
          ("b", .dataframe ["c"] [[.f .inf]])])) = true ∧
        noBadFloat (sanitize_api (.dict [("a", .float .nan),
          ("b", .dataframe ["c"] [[.f .inf]])])) = true ∧
        sanitize_chat (.float .nan) = .none ∧
        sanitize_chat (.npFloat .nan) = .none ∧
        sanitize_api (.float .nan) = .none ∧
        sanitize_api (.npFloat .nan) = .none ∧
        sanitize_chat (.dict [("k", .float .nan)]) = .dict [("k", .none)] ∧
        sanitize_chat (.list [.float .nan]) = .list [.none] ∧
        sanitize_chat (.dataframe ["c"] [[.f .nan]])
          = .dict [("_type", .str "dataframe"), ("shape", .list [.int 1, .int 1]),
                   ("columns", .list [.str "c"]),
                   ("rows", .list [.dict [("c", .none)]])] ∧
        sanitize_api (.dict [("k", .npFloat .nan)]) = .dict [("k", .none)]) :=
  ⟨rfl, sanitize_no_nan_inf (.dict [("a", .float .nan),
      ("b", .dataframe ["c"] [[.f .inf]])]) .nan rfl⟩

end Sanitizer

end Olist
